import Mathlib

set_option maxRecDepth 100000

/-!
Shallow embedding of the motor-control core in
`src/Firmware/MotorControl/motor.cpp` (ODrive firmware).

Conventions of the embedding:
* IEEE single-precision values are modelled by `FVal`: a finite value
  (an exact rational `Q`, rounding is not modelled), a signed infinity, or
  NaN.  Comparisons follow IEEE semantics (every comparison involving NaN is
  false).  `Q` is a plain numerator/denominator pair kept in lowest terms
  with positive denominator by the normalising constructor `Q.norm`; every
  arithmetic operation goes through `Q.norm`, so all values produced by the
  embedding are canonical and propositional equality of computed values
  coincides with equality of the rationals they denote.
* Machine integers are `Nat` with explicit `% 2 ^ 32` where uint32
  wraparound matters; the `uint16_t` compare registers hold the written
  values.
* Hardware inputs and external collaborators (brake resistor, system fast
  checks, the SVM modulator of the `AlphaBetaFrameController` adapter) are
  per-call snapshots carried in an `Env` record.
* Side effects on external collaborators are tracked in the state
  (`gate_enabled`, `brake_updates`).
-/

/-- An exact rational: numerator and (positive, coprime when built by
`Q.norm`) denominator.  Unlike Mathlib's `ℚ` it carries no proof fields, so
it evaluates inside the kernel. -/
structure Q where
  num : Int
  den : Nat
deriving DecidableEq

/-- Build `n / d` in lowest terms with positive denominator (`d ≠ 0`
expected; `d = 0` yields the canonical zero, a case no caller exercises). -/
def Q.norm (n d : Int) : Q :=
  let s : Int := if d < 0 then -1 else 1
  let n2 := s * n
  let d2 := (s * d).toNat
  let g := Nat.gcd n2.natAbs d2
  if g = 0 then ⟨0, 1⟩ else ⟨n2 / (g : Int), d2 / g⟩

/-- The canonical embedding of an integer. -/
def Q.ofInt (n : Int) : Q := ⟨n, 1⟩

/-- The canonical embedding of a natural number. -/
def Q.ofNat (n : Nat) : Q := ⟨(n : Int), 1⟩

/-- Addition. -/
def Q.add (a b : Q) : Q := Q.norm (a.num * b.den + b.num * a.den) (a.den * b.den)

/-- Negation (canonical-form preserving). -/
def Q.neg (a : Q) : Q := ⟨-a.num, a.den⟩

/-- Multiplication. -/
def Q.mul (a b : Q) : Q := Q.norm (a.num * b.num) (a.den * b.den)

/-- Division (`b.num ≠ 0` expected; the zero-divisor case is handled at the
`FVal` level before this is called). -/
def Q.divQ (a b : Q) : Q := Q.norm (a.num * b.den) (a.den * b.num)

/-- Absolute value (canonical-form preserving). -/
def Q.absQ (a : Q) : Q := ⟨|a.num|, a.den⟩

/-- Strict order by cross multiplication (denominators are positive). -/
def Q.blt (a b : Q) : Bool := decide (a.num * b.den < b.num * a.den)

/-- Non-strict order by cross multiplication. -/
def Q.ble (a b : Q) : Bool := decide (a.num * b.den ≤ b.num * a.den)

/-- Model of an IEEE float value: finite (exact rational, rounding ignored),
signed infinity (`neg = true` for negative infinity), or NaN. -/
inductive FVal where
  | fin (q : Q)
  | inf (neg : Bool)
  | nan
deriving DecidableEq

/-- `std::isnan`. -/
def FVal.isNaN : FVal → Bool
  | .nan => true
  | _ => false

/-- IEEE negation. -/
def FVal.neg : FVal → FVal
  | .fin q => .fin q.neg
  | .inf b => .inf (!b)
  | .nan => .nan

/-- IEEE addition (overflow to infinity is not modelled). -/
def FVal.add : FVal → FVal → FVal
  | .nan, _ => .nan
  | _, .nan => .nan
  | .inf b, .inf c => if b = c then .inf b else .nan
  | .inf b, .fin _ => .inf b
  | .fin _, .inf c => .inf c
  | .fin a, .fin b => .fin (a.add b)

/-- IEEE subtraction. -/
def FVal.sub (a b : FVal) : FVal := a.add b.neg

/-- IEEE multiplication. -/
def FVal.mul : FVal → FVal → FVal
  | .nan, _ => .nan
  | _, .nan => .nan
  | .inf b, .inf c => .inf (b != c)
  | .inf b, .fin q => if q.num = 0 then .nan else .inf (b != decide (q.num < 0))
  | .fin q, .inf c => if q.num = 0 then .nan else .inf (c != decide (q.num < 0))
  | .fin a, .fin b => .fin (a.mul b)

/-- IEEE division (zero is unsigned in this model, so `x / 0` for finite
nonzero `x` gives the infinity carrying the sign of `x`, and `0 / 0` gives
NaN). -/
def FVal.div : FVal → FVal → FVal
  | .nan, _ => .nan
  | _, .nan => .nan
  | .inf _, .inf _ => .nan
  | .inf b, .fin q => .inf (b != decide (q.num < 0))
  | .fin _, .inf _ => .fin ⟨0, 1⟩
  | .fin a, .fin b =>
    if b.num = 0 then (if a.num = 0 then .nan else .inf (decide (a.num < 0)))
    else .fin (a.divQ b)

/-- `std::abs` on floats. -/
def FVal.abs : FVal → FVal
  | .fin q => .fin q.absQ
  | .inf _ => .inf false
  | .nan => .nan

/-- IEEE `<` (false whenever an operand is NaN). -/
def FVal.lt : FVal → FVal → Bool
  | .nan, _ => false
  | _, .nan => false
  | .inf b, .inf c => b && !c
  | .inf b, .fin _ => b
  | .fin _, .inf c => !c
  | .fin a, .fin b => a.blt b

/-- IEEE `<=` (false whenever an operand is NaN). -/
def FVal.le : FVal → FVal → Bool
  | .nan, _ => false
  | _, .nan => false
  | .inf b, .inf c => b || !c
  | .inf b, .fin _ => b
  | .fin _, .inf c => !c
  | .fin a, .fin b => a.ble b

/-- `std::min(a, b)`, which is `(b < a) ? b : a`. -/
def FVal.minC (a b : FVal) : FVal := if FVal.lt b a then b else a

/-- The `(uint16_t)` cast of a float in `tim_update_cb` (truncation toward
zero; negative, out-of-range or non-finite inputs are undefined behaviour in
C and are modelled as clamping to zero resp. wrapping mod `2 ^ 16`). -/
def FVal.toU16 : FVal → Nat
  | .fin q => (q.num / (q.den : Int)).toNat % 65536
  | _ => 0

/-- A triple of per-phase float values (`Iph_ABC_t`). -/
structure Iph where
  phA : FVal
  phB : FVal
  phC : FVal
deriving DecidableEq

/-- Modelled from the spec (§7 error taxonomy): the `ODriveIntf::MotorIntf`
error kinds, whose numeric values live outside `src/`; they form a bitmask of
distinct one-bit flags, `ERROR_NONE` being the empty mask. -/
def ERROR_NONE : Nat := 0

/-- Error flag: measured phase resistance out of range. -/
def ERROR_PHASE_RESISTANCE_OUT_OF_RANGE : Nat := 1

/-- Error flag: measured phase inductance out of range. -/
def ERROR_PHASE_INDUCTANCE_OUT_OF_RANGE : Nat := 2

/-- Error flag: gate driver fault. -/
def ERROR_DRV_FAULT : Nat := 4

/-- Error flag: a hardware latch occurred during a PWM register update. -/
def ERROR_CONTROL_DEADLINE_MISSED : Nat := 8

/-- Error flag: the brake resistor subsystem is not armed. -/
def ERROR_BRAKE_RESISTOR_DISARMED : Nat := 16

/-- Error flag: a timer update interrupt was missed. -/
def ERROR_TIMER_UPDATE_MISSED : Nat := 32

/-- Error flag: a raw ADC code was too close to the sensor rails. -/
def ERROR_CURRENT_SENSE_SATURATION : Nat := 64

/-- Error flag: the leakage current exceeded its ceiling. -/
def ERROR_I_LEAK_OUT_OF_RANGE : Nat := 128

/-- Error flag: RMS phase-current trip limit violated. -/
def ERROR_CURRENT_LIMIT_VIOLATION : Nat := 256

/-- Error kind: the controller has not produced a first output yet. -/
def ERROR_CONTROLLER_INITIALIZING : Nat := 512

/-- Error kind: the controller failed (or no control law is installed). -/
def ERROR_CONTROLLER_FAILED : Nat := 1024

/-- Error flag: the bus voltage is unknown (NaN). -/
def ERROR_UNKNOWN_VBUS_VOLTAGE : Nat := 2048

/-- Error flag: the bus-current estimate violated its hard bounds. -/
def ERROR_I_BUS_OUT_OF_RANGE : Nat := 4096

/-- Modelled from the spec (§4.2): the current-measurement period
`current_meas_period`, a positive board constant defined outside `src/`
(8 kHz current-measurement rate). -/
def current_meas_period : FVal := .fin (Q.norm 1 8000)

/-- The hardcoded integrator gain `kI = 10.0f` of the resistance test
(motor.cpp:54). -/
def kI : FVal := .fin (Q.ofNat 10)

/-- State of `ResistanceMeasurementCotnrolLaw` (motor.cpp:18-59). -/
structure ResState where
  max_voltage_ : FVal
  test_current_ : FVal
  test_voltage_ : FVal
  test_mod_ : FVal
deriving DecidableEq

/-- `ResistanceMeasurementCotnrolLaw::reset` (motor.cpp:19-22). -/
def resReset (cl : ResState) : ResState :=
  { cl with test_voltage_ := .fin ⟨0, 1⟩, test_mod_ := .nan }

/-- `ResistanceMeasurementCotnrolLaw::on_measurement` (motor.cpp:24-40):
returns the updated law state and the returned error kind. -/
def resOnMeasurement (cl : ResState) (vbus_voltage Ialpha Ibeta : FVal)
    (input_timestamp : Nat) : ResState × Nat :=
  let tv := cl.test_voltage_.add ((kI.mul current_meas_period).mul (cl.test_current_.sub Ialpha))
  if FVal.lt cl.max_voltage_ tv.abs then
    ({ cl with test_voltage_ := .nan }, ERROR_PHASE_RESISTANCE_OUT_OF_RANGE)
  else if vbus_voltage.isNaN then
    ({ cl with test_voltage_ := tv }, ERROR_UNKNOWN_VBUS_VOLTAGE)
  else
    let vfactor := (FVal.fin (Q.ofNat 1)).div ((FVal.fin (Q.norm 2 3)).mul vbus_voltage)
    ({ cl with test_voltage_ := tv, test_mod_ := tv.mul vfactor }, ERROR_NONE)

/-- `ResistanceMeasurementCotnrolLaw::get_alpha_beta_output` (motor.cpp:42-48). -/
def resGetAlphaBetaOutput (cl : ResState) (output_timestamp : Nat) :
    Sum (FVal × FVal) Nat :=
  if cl.test_mod_.isNaN then Sum.inr ERROR_CONTROLLER_INITIALIZING
  else Sum.inl (cl.test_mod_, FVal.fin ⟨0, 1⟩)

/-- `ResistanceMeasurementCotnrolLaw::get_resistance` (motor.cpp:50-52). -/
def resGetResistance (cl : ResState) : FVal :=
  cl.test_voltage_.div cl.test_current_

/-- Modelled from the spec (§4.2): the timer clock rate `TIM_1_8_CLOCK_HZ`,
a positive board constant defined outside `src/`. -/
def TIM_1_8_CLOCK_HZ : Nat := 168000000

/-- State of `InductanceMeasurementCotnrolLaw` (motor.cpp:68-121). -/
structure IndState where
  test_voltage_ : FVal
  attached_ : Bool
  sign_ : FVal
  start_timestamp_ : Nat
  last_Ialpha_ : FVal
  last_input_timestamp_ : Nat
  deltaI_ : FVal
deriving DecidableEq

/-- `InductanceMeasurementCotnrolLaw::reset` (motor.cpp:69-71). -/
def indReset (cl : IndState) : IndState := { cl with attached_ := false }

/-- `InductanceMeasurementCotnrolLaw::on_measurement` (motor.cpp:73-92). -/
def indOnMeasurement (cl : IndState) (vbus_voltage Ialpha Ibeta : FVal)
    (input_timestamp : Nat) : IndState × Nat :=
  if Ialpha.isNaN || vbus_voltage.isNaN then
    (cl, ERROR_UNKNOWN_VBUS_VOLTAGE)
  else
    let cl1 :=
      if cl.attached_ then
        let sign : FVal :=
          if FVal.le (FVal.fin ⟨0, 1⟩) cl.test_voltage_ then .fin (Q.ofNat 1)
          else .fin (Q.ofInt (-1))
        { cl with deltaI_ := cl.deltaI_.add (sign.neg.mul (Ialpha.sub cl.last_Ialpha_)) }
      else
        { cl with start_timestamp_ := input_timestamp, attached_ := true }
    ({ cl1 with last_Ialpha_ := Ialpha, last_input_timestamp_ := input_timestamp },
     ERROR_NONE)

/-- `InductanceMeasurementCotnrolLaw::get_alpha_beta_output` (motor.cpp:94-100):
toggles the sign of `test_voltage_` and returns the modulation. -/
def indGetAlphaBetaOutput (cl : IndState) (vbus_voltage : FVal)
    (output_timestamp : Nat) : IndState × Sum (FVal × FVal) Nat :=
  let tv := cl.test_voltage_.mul (FVal.fin (Q.ofInt (-1)))
  let vfactor := (FVal.fin (Q.ofNat 1)).div ((FVal.fin (Q.norm 2 3)).mul vbus_voltage)
  ({ cl with test_voltage_ := tv }, Sum.inl (tv.mul vfactor, FVal.fin ⟨0, 1⟩))

/-- `InductanceMeasurementCotnrolLaw::get_inductance` (motor.cpp:102-107);
the timestamp difference is uint32 arithmetic (wraps mod `2 ^ 32`). -/
def indGetInductance (cl : IndState) : FVal :=
  let ticks : Nat :=
    (cl.last_input_timestamp_ + 4294967296 - cl.start_timestamp_ % 4294967296) % 4294967296
  let dt := (FVal.fin (Q.ofNat ticks)).div (FVal.fin (Q.ofNat TIM_1_8_CLOCK_HZ))
  cl.test_voltage_.abs.div (cl.deltaI_.div dt)

/-- The two concrete control laws of this translation unit, as the installed
`control_law_` of a motor (the production field-oriented controller is out of
scope per the spec §1). -/
inductive ControlLaw where
  | res (cl : ResState)
  | ind (cl : IndState)
deriving DecidableEq

/-- `PhaseControlLaw::reset`, dispatched over the two laws. -/
def ControlLaw.reset : ControlLaw → ControlLaw
  | .res cl => .res (resReset cl)
  | .ind cl => .ind (indReset cl)

/-- Modelled from the spec (glossary "alpha/beta frame"): the float constant
`one_by_sqrt3` used by the Clarke transform of the
`AlphaBetaFrameController` adapter (declared outside `src/`). -/
def one_by_sqrt3 : Q := Q.norm 5773502691896258 10000000000000000

/-- Modelled from the spec (§4.1): the alpha component of the Clarke
transform applied by the `AlphaBetaFrameController` adapter before invoking
`on_measurement`. -/
def clarke_alpha (i : Iph) : FVal := i.phA

/-- Modelled from the spec (§4.1): the beta component of the Clarke
transform applied by the `AlphaBetaFrameController` adapter. -/
def clarke_beta (i : Iph) : FVal := (FVal.fin one_by_sqrt3).mul (i.phB.sub i.phC)

/-- `control_law_->on_measurement` as called from `tim_update_cb`
(motor.cpp:586-588): the adapter converts the three-phase measurement to the
alpha/beta frame and dispatches to the installed law. -/
def ControlLaw.onMeasurement (law : ControlLaw) (vbus : FVal) (current : Iph)
    (ts : Nat) : ControlLaw × Nat :=
  match law with
  | .res cl =>
    let r := resOnMeasurement cl vbus (clarke_alpha current) (clarke_beta current) ts
    (.res r.1, r.2)
  | .ind cl =>
    let r := indOnMeasurement cl vbus (clarke_alpha current) (clarke_beta current) ts
    (.ind r.1, r.2)

/-- `control_law_->get_output` as called from `tim_update_cb`
(motor.cpp:600): the adapter obtains the law's alpha/beta modulation and maps
it through the SVM modulator `svm` (spec-modelled, see `Env.svm`) to three
per-phase PWM duty cycles. -/
def ControlLaw.getOutput (law : ControlLaw) (vbus : FVal)
    (svm : FVal → FVal → Sum (FVal × FVal × FVal) Nat) (ts : Nat) :
    ControlLaw × Sum (FVal × FVal × FVal) Nat :=
  match law with
  | .res cl =>
    match resGetAlphaBetaOutput cl ts with
    | Sum.inl ab => (.res cl, svm ab.1 ab.2)
    | Sum.inr e => (.res cl, Sum.inr e)
  | .ind cl =>
    let r := indGetAlphaBetaOutput cl vbus ts
    match r.2 with
    | Sum.inl ab => (.ind r.1, svm ab.1 ab.2)
    | Sum.inr e => (.ind r.1, Sum.inr e)

/-- Modelled from the spec (§4.5): the board timer period constant
`TIM_1_8_PERIOD_CLOCKS`, defined outside `src/`. -/
def TIM_1_8_PERIOD_CLOCKS : Nat := 3500

/-- Modelled from the spec (§4.5): the repetition-counter constant
`TIM_1_8_RCR`, defined outside `src/`. -/
def TIM_1_8_RCR : Nat := 0

/-- Modelled from the spec (§4.3): the lower fraction-of-full-scale ADC
window bound, `(uint32_t)(4096 * CURRENT_SENSE_MIN_VOLT / 3.3)` with the
board value `CURRENT_SENSE_MIN_VOLT = 0.3` (motor.cpp:9). -/
def CURRENT_ADC_LOWER_BOUND : Nat := 372

/-- Modelled from the spec (§4.3): the upper ADC window bound,
`(uint32_t)(4096 * CURRENT_SENSE_MAX_VOLT / 3.3)` with the board value
`CURRENT_SENSE_MAX_VOLT = 3.0` (motor.cpp:10). -/
def CURRENT_ADC_UPPER_BOUND : Nat := 3723

/-- The state of one `Motor` object, restricted to the fields
`src/Firmware/MotorControl/motor.cpp` reads or writes, together with the
tracked side effects on external collaborators.  Fields of `config_` are
flattened into the record (`dc_calib_tau` stands for `config_.dc_calib_tau`
and so on). -/
structure MotorState where
  is_armed_ : Bool
  error_ : Nat
  control_law_ : Option ControlLaw
  counting_down_ : Bool
  last_update_timestamp_ : Nat
  ccr1 : Nat
  ccr2 : Nat
  ccr3 : Nat
  aoe : Bool
  moe : Bool
  gate_enabled : Bool
  DC_calib_ : Iph
  dc_calib_running_since_ : FVal
  current_meas_ : Iph
  I_leak_ : FVal
  I_bus_ : FVal
  effective_current_lim_ : FVal
  max_dc_calib_ : FVal
  phase_current_rev_gain_ : FVal
  shunt_conductance_ : FVal
  current_sensor_mask_ : Nat
  dc_calib_tau : FVal
  I_leak_max : FVal
  current_lim_margin : FVal
  I_bus_hard_min : FVal
  I_bus_hard_max : FVal
  phase_resistance : FVal
  phase_inductance : FVal
  brake_updates : Nat
deriving DecidableEq

/-- Per-interrupt snapshot of the hardware and of the external
collaborators consumed by the motor code:
`dir_down` is the `TIM_CR1_DIR` bit (true while counting down),
`update_flag_tentative` / `update_flag_final` are the values of the
`TIM_FLAG_UPDATE` latch flag observed at the end of the tentative resp.
final `apply_pwm_timings` critical section, `fast_check_error` models the
spec §6 system fast-safety-check hook (it may request a disarm with an
error, and nothing else), and `svm` models the alpha/beta → three-phase
modulator of the `AlphaBetaFrameController` adapter (declared outside
`src/`). -/
structure Env where
  dir_down : Bool
  vbus_voltage : FVal
  brake_resistor_armed : Bool
  update_flag_tentative : Bool
  update_flag_final : Bool
  fast_check_error : Option Nat
  svm : FVal → FVal → Sum (FVal × FVal × FVal) Nat

/-- `Motor::disarm` (motor.cpp:228-249).  Note the C++ guard
`if (was_armed)` before `update_brake_current()` tests the pointer argument,
which the defaulting at entry (`was_armed = was_armed ? was_armed : &dummy`)
guarantees is never null, so the brake-current update runs on every call.
The function always returns true. -/
def Motor.disarm (s : MotorState) : MotorState × Bool :=
  let s1 : MotorState :=
    { s with
      gate_enabled := if s.is_armed_ then false else s.gate_enabled,
      is_armed_ := false,
      aoe := false,
      moe := false,
      control_law_ := none }
  ({ s1 with brake_updates := s1.brake_updates + 1 }, true)

/-- `Motor::disarm_with_error` (motor.cpp:294-298): accumulate the error
bit, disarm, and run `update_brake_current()` once more. -/
def Motor.disarm_with_error (s : MotorState) (error : Nat) : MotorState :=
  let s1 := { s with error_ := s.error_ ||| error }
  let s2 := (Motor.disarm s1).1
  { s2 with brake_updates := s2.brake_updates + 1 }

/-- `Motor::arm` (motor.cpp:162-179): install and reset the control law and
set the armed flag only if the brake resistor subsystem is armed; always
returns true.  The resets of the axis controller and of the async estimator
touch only out-of-scope collaborator state (spec §1) and are omitted. -/
def Motor.arm (s : MotorState) (brake_resistor_armed : Bool)
    (control_law : Option ControlLaw) : MotorState × Bool :=
  let s1 := { s with control_law_ := Option.map ControlLaw.reset control_law }
  let s2 := if brake_resistor_armed then { s1 with is_armed_ := true } else s1
  (s2, true)

/-- `Motor::apply_pwm_timings` (motor.cpp:190-219): disarm if the brake
resistor is disarmed, write the three compare registers, set the
automatic-output-enable bit on a non-tentative write while armed, and
finally disarm with the deadline-missed error if the hardware update/latch
flag (`update_flag`) is found set. -/
def Motor.apply_pwm_timings (s : MotorState) (brake_resistor_armed : Bool)
    (t0 t1 t2 : Nat) (tentative : Bool) (update_flag : Bool) : MotorState :=
  let s1 :=
    if !brake_resistor_armed then Motor.disarm_with_error s ERROR_BRAKE_RESISTOR_DISARMED
    else s
  let s2 := { s1 with ccr1 := t0, ccr2 := t1, ccr3 := t2 }
  let s3 := if !tentative && s2.is_armed_ then { s2 with aoe := true } else s2
  if update_flag then Motor.disarm_with_error s3 ERROR_CONTROL_DEADLINE_MISSED else s3

/-- `Motor::phase_current_from_adcval` (motor.cpp:354-360), as a function of
the two gain fields it reads. -/
def phase_current_from_adcval (rev_gain shunt : FVal) (ADCValue : Nat) : FVal :=
  let adcval_bal : Int := (ADCValue : Int) - 2048
  let amp_out_volt : FVal := (FVal.fin (Q.norm 33 40960)).mul (FVal.fin (Q.ofInt adcval_bal))
  let shunt_volt := amp_out_volt.mul rev_gain
  shunt_volt.mul shunt

/-- The saturation test of `tim_update_cb` (motor.cpp:492-503) for one raw
ADC code: not the `0xffffffff` sentinel and outside the window. -/
def isSaturated (adc : Nat) : Bool :=
  adc != 0xffffffff &&
    (decide (adc < CURRENT_ADC_LOWER_BOUND) || decide (CURRENT_ADC_UPPER_BOUND < adc))

/-- The value a raw ADC code holds after the saturation test: saturated
codes are overwritten with the `0xffffffff` sentinel. -/
def satClamp (adc : Nat) : Nat := if isSaturated adc then 0xffffffff else adc

/-- The sensor-mask switch of `tim_update_cb` (motor.cpp:513-518) inferring
the one physically absent phase from the other two; every other mask value
leaves the triple unchanged. -/
def inferMissing (mask : Nat) (c : Iph) : Iph :=
  if mask = 6 then { c with phA := (c.phB.add c.phC).neg }
  else if mask = 5 then { c with phB := (c.phC.add c.phA).neg }
  else if mask = 3 then { c with phC := (c.phA.add c.phB).neg }
  else c

/-- The `current_valid` test of `tim_update_cb` (motor.cpp:520-522). -/
def currentValid (c : Iph) : Bool :=
  !c.phA.isNaN && !c.phB.isNaN && !c.phC.isNaN

/-- The conversion pipeline of one interrupt (motor.cpp:492-518): clamp
saturated codes to the sentinel, convert surviving codes to currents, and
infer the missing phase from the static sensor mask.  It is a pure function
of the raw codes and of the three gain/mask fields, none of which any
earlier step of the handler writes. -/
def cycleCurrent (rev_gain shunt : FVal) (mask : Nat) (a b c : Nat) : Iph :=
  inferMissing mask
    { phA := if satClamp a != 0xffffffff then phase_current_from_adcval rev_gain shunt (satClamp a) else .nan,
      phB := if satClamp b != 0xffffffff then phase_current_from_adcval rev_gain shunt (satClamp b) else .nan,
      phC := if satClamp c != 0xffffffff then phase_current_from_adcval rev_gain shunt (satClamp c) else .nan }

/-- `interrupt_period` of `tim_update_cb` (motor.cpp:526). -/
def interrupt_period : FVal :=
  .fin (Q.norm ((TIM_1_8_PERIOD_CLOCKS * (TIM_1_8_RCR + 1) : Nat) : Int) ((TIM_1_8_CLOCK_HZ : Nat) : Int))

/-- `dc_calib_period = 2 * interrupt_period` (motor.cpp:530): twice the
half-period between interrupts. -/
def dc_calib_period : FVal := (FVal.fin (Q.ofNat 2)).mul interrupt_period

/-- `calib_filter_k = min(dc_calib_period / dc_calib_tau, 1.0f)`
(motor.cpp:531). -/
def calib_filter_k (tau : FVal) : FVal :=
  FVal.minC (dc_calib_period.div tau) (FVal.fin (Q.ofNat 1))

/-- One low-pass update of the three DC-offset estimates (motor.cpp:532-534). -/
def dcCalibStep (dc : Iph) (tau : FVal) (current : Iph) : Iph :=
  let k := calib_filter_k tau
  { phA := dc.phA.add ((current.phA.sub dc.phA).mul k),
    phB := dc.phB.add ((current.phB.sub dc.phB).mul k),
    phC := dc.phC.add ((current.phC.sub dc.phC).mul k) }

/-- The tentative 50%-duty PWM write of `tim_update_cb` (motor.cpp:483-489),
run only on the PWM-update (counting-down) half. -/
def tentativePwmStep (s : MotorState) (env : Env) : MotorState :=
  if s.counting_down_ then
    Motor.apply_pwm_timings s env.brake_resistor_armed
      (TIM_1_8_PERIOD_CLOCKS / 2) (TIM_1_8_PERIOD_CLOCKS / 2) (TIM_1_8_PERIOD_CLOCKS / 2)
      true env.update_flag_tentative
  else s

/-- The saturation disarms of `tim_update_cb` (motor.cpp:492-503): one
`disarm_with_error(ERROR_CURRENT_SENSE_SATURATION)` per saturated code. -/
def saturationStep (s : MotorState) (a b c : Nat) : MotorState :=
  let s1 := if isSaturated a then Motor.disarm_with_error s ERROR_CURRENT_SENSE_SATURATION else s
  let s2 := if isSaturated b then Motor.disarm_with_error s1 ERROR_CURRENT_SENSE_SATURATION else s1
  if isSaturated c then Motor.disarm_with_error s2 ERROR_CURRENT_SENSE_SATURATION else s2

/-- The DC-offset calibration block of `tim_update_cb` (motor.cpp:528-544),
run only on the counting-down half: low-pass update on valid current, reset
to exactly zero on invalid current. -/
def dcCalibStage (s : MotorState) (current : Iph) : MotorState :=
  if s.counting_down_ then
    if currentValid current then
      { s with
        DC_calib_ := dcCalibStep s.DC_calib_ s.dc_calib_tau current,
        dc_calib_running_since_ := s.dc_calib_running_since_.add dc_calib_period }
    else
      { s with
        DC_calib_ := { phA := .fin ⟨0, 1⟩, phB := .fin ⟨0, 1⟩, phC := .fin ⟨0, 1⟩ },
        dc_calib_running_since_ := .fin ⟨0, 1⟩ }
  else s

/-- The current-sense block of `tim_update_cb` (motor.cpp:546-593), run only
on the counting-up half: offset application and leakage redistribution when
the calibration is trusted, leakage trip, the system fast checks, the RMS
current-limit trip, and the measurement delivery to the installed law. -/
def currentSenseStage (s : MotorState) (env : Env) (current : Iph) : MotorState :=
  if s.counting_down_ then s
  else
    let dc_calib_valid :=
      FVal.le (s.dc_calib_tau.mul (FVal.fin (Q.norm 15 2))) s.dc_calib_running_since_
        && FVal.lt s.DC_calib_.phA.abs s.max_dc_calib_
        && FVal.lt s.DC_calib_.phB.abs s.max_dc_calib_
        && FVal.lt s.DC_calib_.phC.abs s.max_dc_calib_
    let s1 :=
      if currentValid current && dc_calib_valid then
        let cA := current.phA.sub s.DC_calib_.phA
        let cB := current.phB.sub s.DC_calib_.phB
        let cC := current.phC.sub s.DC_calib_.phC
        let leak := (cA.add cB).add cC
        { s with
          I_leak_ := leak,
          current_meas_ :=
            { phA := cA.sub (leak.div (FVal.fin (Q.ofNat 3))),
              phB := cB.sub (leak.div (FVal.fin (Q.ofNat 3))),
              phC := cC.sub (leak.div (FVal.fin (Q.ofNat 3))) } }
      else
        { s with I_leak_ := .nan, current_meas_ := { phA := .nan, phB := .nan, phC := .nan } }
    let s2 :=
      if FVal.lt s1.I_leak_max s1.I_leak_.abs then
        Motor.disarm_with_error s1 ERROR_I_LEAK_OUT_OF_RANGE
      else s1
    let s3 :=
      match env.fast_check_error with
      | some e => Motor.disarm_with_error s2 e
      | none => s2
    let Itrip := s3.effective_current_lim_.add s3.current_lim_margin
    let normsq :=
      (FVal.fin (Q.norm 2 3)).mul
        (((s3.current_meas_.phA.mul s3.current_meas_.phA).add
          (s3.current_meas_.phB.mul s3.current_meas_.phB)).add
          (s3.current_meas_.phC.mul s3.current_meas_.phC))
    let s4 :=
      if FVal.lt (Itrip.mul Itrip) normsq then
        Motor.disarm_with_error s3 ERROR_CURRENT_LIMIT_VIOLATION
      else s3
    match s4.control_law_ with
    | some law =>
      let r := ControlLaw.onMeasurement law env.vbus_voltage s4.current_meas_ s4.last_update_timestamp_
      let s5 := { s4 with control_law_ := some r.1 }
      if r.2 != ERROR_NONE then Motor.disarm_with_error s5 r.2 else s5
    | none => s4

/-- The control-law query of the PWM block (motor.cpp:598-601): a missing
law yields `ERROR_CONTROLLER_FAILED`. -/
def pwmQueryLaw (s : MotorState) (env : Env) :
    MotorState × Sum (FVal × FVal × FVal) Nat :=
  match s.control_law_ with
  | some law =>
    let r := ControlLaw.getOutput law env.vbus_voltage env.svm
      ((s.last_update_timestamp_ + 2 * TIM_1_8_PERIOD_CLOCKS * (TIM_1_8_RCR + 1)) % 4294967296)
    ({ s with control_law_ := some r.1 }, r.2)
  | none => (s, Sum.inr ERROR_CONTROLLER_FAILED)

/-- The commit branch of the PWM block (motor.cpp:604-625): when armed with
a valid duty-cycle triple, compute the bus current and commit the converted
raw counts (non-tentative); when armed with an error result, tolerate only
the initializing error while the hardware output enable is off, otherwise
disarm with it.  Returns the new state and the `i_bus` local. -/
def pwmApplyResult (s : MotorState) (env : Env) :
    Sum (FVal × FVal × FVal) Nat → MotorState × FVal
  | Sum.inl timings =>
    if s.is_armed_ then
      let i_bus :=
        ((((FVal.fin (Q.norm 1 2)).sub timings.1).mul s.current_meas_.phA).add
          (((FVal.fin (Q.norm 1 2)).sub timings.2.1).mul s.current_meas_.phB)).add
          (((FVal.fin (Q.norm 1 2)).sub timings.2.2).mul s.current_meas_.phC)
      (Motor.apply_pwm_timings s env.brake_resistor_armed
        ((timings.1.mul (FVal.fin (Q.ofNat TIM_1_8_PERIOD_CLOCKS))).toU16)
        ((timings.2.1.mul (FVal.fin (Q.ofNat TIM_1_8_PERIOD_CLOCKS))).toU16)
        ((timings.2.2.mul (FVal.fin (Q.ofNat TIM_1_8_PERIOD_CLOCKS))).toU16)
        false env.update_flag_final,
       i_bus)
    else (s, .fin ⟨0, 1⟩)
  | Sum.inr e =>
    if s.is_armed_ then
      if !s.moe && e == ERROR_CONTROLLER_INITIALIZING then (s, .fin ⟨0, 1⟩)
      else (Motor.disarm_with_error s e, .fin ⟨0, 1⟩)
    else (s, .fin ⟨0, 1⟩)

/-- The PWM-update block of `tim_update_cb` (motor.cpp:595-640), run only on
the counting-down half: query the installed law, commit or handle its
result, zero the bus-current estimate when the motor ends the step
disarmed, trip on the hard bus-current bounds, and notify the
brake-resistor collaborator (`update_brake_current`). -/
def pwmStage (s : MotorState) (env : Env) : MotorState :=
  if s.counting_down_ then
    let p := pwmQueryLaw s env
    let q := pwmApplyResult p.1 env p.2
    let s2 := q.1
    let i_bus := if s2.is_armed_ then q.2 else .fin ⟨0, 1⟩
    let s3 := { s2 with I_bus_ := i_bus }
    let s4 :=
      if FVal.lt i_bus s3.I_bus_hard_min || FVal.lt s3.I_bus_hard_max i_bus then
        Motor.disarm_with_error s3 ERROR_I_BUS_OUT_OF_RANGE
      else s3
    { s4 with brake_updates := s4.brake_updates + 1 }
  else s

/-- The timestamp advance at the top of `tim_update_cb` (motor.cpp:463),
uint32 wraparound made explicit. -/
def advanceTimestamp (s : MotorState) : MotorState :=
  { s with
    last_update_timestamp_ :=
      (s.last_update_timestamp_ + TIM_1_8_PERIOD_CLOCKS * (TIM_1_8_RCR + 1)) % 4294967296 }

/-- The write `counting_down_ = counting_down` of `tim_update_cb`
(motor.cpp:474). -/
def setCountingDown (s : MotorState) (d : Bool) : MotorState :=
  { s with counting_down_ := d }

/-- `Motor::tim_update_cb` (motor.cpp:462-641).  The timestamp advances
first; a missed timer update (unchanged counter direction) disarms with
`ERROR_TIMER_UPDATE_MISSED` and returns immediately.  Otherwise the handler
runs the tentative PWM write, the saturation checks, the DC-calibration
block, the current-sense block, and the PWM block; the conversion pipeline
`cycleCurrent` is pure and reads only fields no earlier step writes, so it
is evaluated once up front. -/
def Motor.tim_update_cb (s0 : MotorState) (env : Env) (adc_a adc_b adc_c : Nat) : MotorState :=
  let s := advanceTimestamp s0
  if s.counting_down_ == env.dir_down then
    Motor.disarm_with_error s ERROR_TIMER_UPDATE_MISSED
  else
    let s1 := setCountingDown s env.dir_down
    let current :=
      cycleCurrent s1.phase_current_rev_gain_ s1.shunt_conductance_ s1.current_sensor_mask_
        adc_a adc_b adc_c
    let s2 := tentativePwmStep s1 env
    let s3 := saturationStep s2 adc_a adc_b adc_c
    let s4 := dcCalibStage s3 current
    let s5 := currentSenseStage s4 env current
    pwmStage s5 env

/-- The post-loop portion of `Motor::measure_phase_resistance`
(motor.cpp:381-398): `s` is the motor state and `cl` the control-law state
at the moment the polling loop exits.  Records the success flag, disarms,
unconditionally stores `get_resistance()` into `config_.phase_resistance`,
and fails with the out-of-range error when the stored value is NaN. -/
def Motor.measure_phase_resistance_tail (s : MotorState) (cl : ResState) :
    MotorState × Bool :=
  let success := s.is_armed_
  let s1 := (Motor.disarm s).1
  let s2 := { s1 with phase_resistance := resGetResistance cl }
  if s2.phase_resistance.isNaN then
    (Motor.disarm_with_error s2 ERROR_PHASE_RESISTANCE_OUT_OF_RANGE, false)
  else (s2, success)

/-- The post-loop portion of `Motor::measure_phase_inductance`
(motor.cpp:415-431): records the success flag, disarms, unconditionally
stores `get_inductance()` into `config_.phase_inductance`, and fails with
the out-of-range error flag when the stored value is outside
`[2e-6, 4000e-6]` (the error bit is set without a further disarm call). -/
def Motor.measure_phase_inductance_tail (s : MotorState) (cl : IndState) :
    MotorState × Bool :=
  let success := s.is_armed_
  let s1 := (Motor.disarm s).1
  let s2 := { s1 with phase_inductance := indGetInductance cl }
  if !(FVal.le (FVal.fin (Q.norm 1 500000)) s2.phase_inductance
        && FVal.le s2.phase_inductance (FVal.fin (Q.norm 1 250))) then
    ({ s2 with error_ := s2.error_ ||| ERROR_PHASE_INDUCTANCE_OUT_OF_RANGE }, false)
  else (s2, success)

/-- A concrete disarmed motor state with plausible configuration values,
used as the base state of the concrete evaluations below. -/
def motor0 : MotorState :=
  { is_armed_ := false
    error_ := 0
    control_law_ := none
    counting_down_ := false
    last_update_timestamp_ := 0
    ccr1 := 0
    ccr2 := 0
    ccr3 := 0
    aoe := false
    moe := false
    gate_enabled := false
    DC_calib_ := { phA := .fin ⟨0, 1⟩, phB := .fin ⟨0, 1⟩, phC := .fin ⟨0, 1⟩ }
    dc_calib_running_since_ := .fin ⟨0, 1⟩
    current_meas_ := { phA := .nan, phB := .nan, phC := .nan }
    I_leak_ := .fin ⟨0, 1⟩
    I_bus_ := .fin ⟨0, 1⟩
    effective_current_lim_ := .fin (Q.ofNat 10)
    max_dc_calib_ := .fin (Q.ofNat 1)
    phase_current_rev_gain_ := .fin (Q.norm 1 20)
    shunt_conductance_ := .fin (Q.ofNat 2000)
    current_sensor_mask_ := 7
    dc_calib_tau := .fin (Q.norm 1 5)
    I_leak_max := .fin (Q.norm 1 10)
    current_lim_margin := .fin (Q.ofNat 8)
    I_bus_hard_min := .fin (Q.ofInt (-20))
    I_bus_hard_max := .fin (Q.ofNat 20)
    phase_resistance := .fin (Q.norm 1 10)
    phase_inductance := .fin (Q.norm 1 10000)
    brake_updates := 0 }

/-- `motor0` with the armed flag set (as after a successful arm). -/
def motorArmed : MotorState := { motor0 with is_armed_ := true }

/-- A trivial concrete SVM modulator used by the concrete environments
(its value is irrelevant to every property proved below). -/
def svm0 : FVal → FVal → Sum (FVal × FVal × FVal) Nat :=
  fun a b => Sum.inl (a, b, FVal.fin ⟨0, 1⟩)

/-- A concrete environment for a counting-up (current-sense) half-cycle. -/
def envUp : Env :=
  { dir_down := false
    vbus_voltage := .fin (Q.ofNat 12)
    brake_resistor_armed := true
    update_flag_tentative := false
    update_flag_final := false
    fast_check_error := none
    svm := svm0 }

/-- A concrete environment for a counting-down (PWM-update) half-cycle. -/
def envDown : Env := { envUp with dir_down := true }

/-- A concrete resistance-law state as configured by
`measure_phase_resistance(10, 12)` right after `reset()`. -/
def resCL0 : ResState :=
  { max_voltage_ := .fin (Q.ofNat 12)
    test_current_ := .fin (Q.ofNat 10)
    test_voltage_ := .fin ⟨0, 1⟩
    test_mod_ := .nan }

/-- A concrete inductance-law state as configured by
`measure_phase_inductance(2)` right after `reset()`. -/
def indCL0 : IndState :=
  { test_voltage_ := .fin (Q.ofNat 2)
    attached_ := false
    sign_ := .fin ⟨0, 1⟩
    start_timestamp_ := 0
    last_Ialpha_ := .nan
    last_input_timestamp_ := 0
    deltaI_ := .fin ⟨0, 1⟩ }

/-- A concrete resistance-law state as configured by
`measure_phase_resistance(0, 12)` (zero test current) right after
`reset()`. -/
def clC7 : ResState :=
  { max_voltage_ := .fin (Q.ofNat 12)
    test_current_ := .fin ⟨0, 1⟩
    test_voltage_ := .fin ⟨0, 1⟩
    test_mod_ := .nan }

/-- `clC7` after one delivered measurement with bus voltage 12 V and alpha
current −1 A: the accumulated test voltage is the finite nonzero value
`kI · current_meas_period · 1 = 1/800`. -/
def clC7run : ResState :=
  (resOnMeasurement clC7 (.fin (Q.ofNat 12)) (.fin (Q.ofInt (-1))) (.fin ⟨0, 1⟩) 0).1

/-- A concrete motor state entering a counting-up half-cycle with a nonzero
DC-offset estimate and accumulated calibration time. -/
def sC6 : MotorState :=
  { motor0 with
    counting_down_ := true
    DC_calib_ := { phA := .fin (Q.ofNat 1), phB := .fin (Q.ofNat 1), phC := .fin (Q.ofNat 1) }
    dc_calib_running_since_ := .fin (Q.ofNat 5) }

/-- Setting a flag in a bitmask makes the mask contain it: masking the
result with the flag gives the flag back. -/
theorem lor_land_self (a f : Nat) : (a ||| f) &&& f = f := by
  apply Nat.eq_of_testBit_eq
  intro i
  simp [Nat.testBit_lor, Nat.testBit_land]
  cases f.testBit i <;> simp

/-- `disarm_with_error` clears the armed flag. -/
theorem dwe_is_armed (s : MotorState) (e : Nat) :
    (Motor.disarm_with_error s e).is_armed_ = false := rfl

/-- `disarm_with_error` ors the error bit into the sticky mask. -/
theorem dwe_error (s : MotorState) (e : Nat) :
    (Motor.disarm_with_error s e).error_ = s.error_ ||| e := rfl

/-- `disarm_with_error` leaves the DC-offset estimates alone. -/
theorem dwe_DC (s : MotorState) (e : Nat) :
    (Motor.disarm_with_error s e).DC_calib_ = s.DC_calib_ := rfl

/-- `disarm_with_error` leaves the calibration-time accumulator alone. -/
theorem dwe_run (s : MotorState) (e : Nat) :
    (Motor.disarm_with_error s e).dc_calib_running_since_ = s.dc_calib_running_since_ := rfl

/-- `disarm_with_error` leaves the half-cycle tracker alone. -/
theorem dwe_cd (s : MotorState) (e : Nat) :
    (Motor.disarm_with_error s e).counting_down_ = s.counting_down_ := rfl

/-- `disarm_with_error` leaves the configured calibration time constant alone. -/
theorem dwe_tau (s : MotorState) (e : Nat) :
    (Motor.disarm_with_error s e).dc_calib_tau = s.dc_calib_tau := rfl

/-- `apply_pwm_timings` leaves the DC-offset estimates alone. -/
theorem apt_DC (s : MotorState) (br : Bool) (t0 t1 t2 : Nat) (tnt fl : Bool) :
    (Motor.apply_pwm_timings s br t0 t1 t2 tnt fl).DC_calib_ = s.DC_calib_ := by
  simp only [Motor.apply_pwm_timings]
  cases br <;> cases tnt <;> cases fl <;> simp [dwe_DC, apply_ite MotorState.DC_calib_]

/-- `apply_pwm_timings` leaves the calibration-time accumulator alone. -/
theorem apt_run (s : MotorState) (br : Bool) (t0 t1 t2 : Nat) (tnt fl : Bool) :
    (Motor.apply_pwm_timings s br t0 t1 t2 tnt fl).dc_calib_running_since_ = s.dc_calib_running_since_ := by
  simp only [Motor.apply_pwm_timings]
  cases br <;> cases tnt <;> cases fl <;> simp [dwe_run, apply_ite MotorState.dc_calib_running_since_]

/-- `apply_pwm_timings` leaves the half-cycle tracker alone. -/
theorem apt_cd (s : MotorState) (br : Bool) (t0 t1 t2 : Nat) (tnt fl : Bool) :
    (Motor.apply_pwm_timings s br t0 t1 t2 tnt fl).counting_down_ = s.counting_down_ := by
  simp only [Motor.apply_pwm_timings]
  cases br <;> cases tnt <;> cases fl <;> simp [dwe_cd, apply_ite MotorState.counting_down_]

/-- `apply_pwm_timings` leaves the calibration time constant alone. -/
theorem apt_tau (s : MotorState) (br : Bool) (t0 t1 t2 : Nat) (tnt fl : Bool) :
    (Motor.apply_pwm_timings s br t0 t1 t2 tnt fl).dc_calib_tau = s.dc_calib_tau := by
  simp only [Motor.apply_pwm_timings]
  cases br <;> cases tnt <;> cases fl <;> simp [dwe_tau, apply_ite MotorState.dc_calib_tau]

/-- The tentative PWM write leaves the DC-offset estimates alone. -/
theorem tps_DC (s : MotorState) (env : Env) :
    (tentativePwmStep s env).DC_calib_ = s.DC_calib_ := by
  simp [tentativePwmStep, apply_ite MotorState.DC_calib_, apt_DC]

/-- The tentative PWM write leaves the calibration-time accumulator alone. -/
theorem tps_run (s : MotorState) (env : Env) :
    (tentativePwmStep s env).dc_calib_running_since_ = s.dc_calib_running_since_ := by
  simp [tentativePwmStep, apply_ite MotorState.dc_calib_running_since_, apt_run]

/-- The tentative PWM write leaves the half-cycle tracker alone. -/
theorem tps_cd (s : MotorState) (env : Env) :
    (tentativePwmStep s env).counting_down_ = s.counting_down_ := by
  simp [tentativePwmStep, apply_ite MotorState.counting_down_, apt_cd]

/-- The tentative PWM write leaves the calibration time constant alone. -/
theorem tps_tau (s : MotorState) (env : Env) :
    (tentativePwmStep s env).dc_calib_tau = s.dc_calib_tau := by
  simp [tentativePwmStep, apply_ite MotorState.dc_calib_tau, apt_tau]

/-- The saturation disarms leave the DC-offset estimates alone. -/
theorem sat_DC (s : MotorState) (a b c : Nat) :
    (saturationStep s a b c).DC_calib_ = s.DC_calib_ := by
  simp [saturationStep, apply_ite MotorState.DC_calib_, dwe_DC]

/-- The saturation disarms leave the calibration-time accumulator alone. -/
theorem sat_run (s : MotorState) (a b c : Nat) :
    (saturationStep s a b c).dc_calib_running_since_ = s.dc_calib_running_since_ := by
  simp [saturationStep, apply_ite MotorState.dc_calib_running_since_, dwe_run]

/-- The saturation disarms leave the half-cycle tracker alone. -/
theorem sat_cd (s : MotorState) (a b c : Nat) :
    (saturationStep s a b c).counting_down_ = s.counting_down_ := by
  simp [saturationStep, apply_ite MotorState.counting_down_, dwe_cd]

/-- The saturation disarms leave the calibration time constant alone. -/
theorem sat_tau (s : MotorState) (a b c : Nat) :
    (saturationStep s a b c).dc_calib_tau = s.dc_calib_tau := by
  simp [saturationStep, apply_ite MotorState.dc_calib_tau, dwe_tau]

/-- The DC-calibration block leaves the half-cycle tracker alone. -/
theorem dcs_cd (s : MotorState) (cur : Iph) :
    (dcCalibStage s cur).counting_down_ = s.counting_down_ := by
  simp [dcCalibStage, apply_ite MotorState.counting_down_]

/-- The current-sense block is skipped entirely on a counting-down cycle. -/
theorem css_skip (s : MotorState) (env : Env) (cur : Iph) (h : s.counting_down_ = true) :
    currentSenseStage s env cur = s := by
  simp [currentSenseStage, h]

/-- The control-law query leaves the DC-offset estimates alone. -/
theorem pql_DC (s : MotorState) (env : Env) :
    (pwmQueryLaw s env).1.DC_calib_ = s.DC_calib_ := by
  simp only [pwmQueryLaw]
  cases s.control_law_ <;> rfl

/-- The control-law query leaves the calibration-time accumulator alone. -/
theorem pql_run (s : MotorState) (env : Env) :
    (pwmQueryLaw s env).1.dc_calib_running_since_ = s.dc_calib_running_since_ := by
  simp only [pwmQueryLaw]
  cases s.control_law_ <;> rfl

/-- The PWM commit branch leaves the DC-offset estimates alone. -/
theorem par_DC (s : MotorState) (env : Env) (r : Sum (FVal × FVal × FVal) Nat) :
    (pwmApplyResult s env r).1.DC_calib_ = s.DC_calib_ := by
  cases r <;>
    simp [pwmApplyResult, apply_ite (fun p => MotorState.DC_calib_ (Prod.fst p)), dwe_DC, apt_DC]

/-- The PWM commit branch leaves the calibration-time accumulator alone. -/
theorem par_run (s : MotorState) (env : Env) (r : Sum (FVal × FVal × FVal) Nat) :
    (pwmApplyResult s env r).1.dc_calib_running_since_ = s.dc_calib_running_since_ := by
  cases r <;>
    simp [pwmApplyResult, apply_ite (fun p => MotorState.dc_calib_running_since_ (Prod.fst p)),
      dwe_run, apt_run]

/-- The whole PWM block leaves the DC-offset estimates alone. -/
theorem pwm_DC (s : MotorState) (env : Env) :
    (pwmStage s env).DC_calib_ = s.DC_calib_ := by
  simp [pwmStage, apply_ite MotorState.DC_calib_, dwe_DC, par_DC, pql_DC]

/-- The whole PWM block leaves the calibration-time accumulator alone. -/
theorem pwm_run (s : MotorState) (env : Env) :
    (pwmStage s env).dc_calib_running_since_ = s.dc_calib_running_since_ := by
  simp [pwmStage, apply_ite MotorState.dc_calib_running_since_, dwe_run, par_run, pql_run]

/-- `setCountingDown` leaves the DC-offset estimates alone. -/
theorem scd_DC (s : MotorState) (d : Bool) :
    (setCountingDown s d).DC_calib_ = s.DC_calib_ := rfl

/-- `setCountingDown` leaves the calibration-time accumulator alone. -/
theorem scd_run (s : MotorState) (d : Bool) :
    (setCountingDown s d).dc_calib_running_since_ = s.dc_calib_running_since_ := rfl

/-- `setCountingDown` leaves the calibration time constant alone. -/
theorem scd_tau (s : MotorState) (d : Bool) :
    (setCountingDown s d).dc_calib_tau = s.dc_calib_tau := rfl

/-- `advanceTimestamp` leaves the DC-offset estimates alone. -/
theorem adv_DC (s : MotorState) :
    (advanceTimestamp s).DC_calib_ = s.DC_calib_ := rfl

/-- `advanceTimestamp` leaves the calibration-time accumulator alone. -/
theorem adv_run (s : MotorState) :
    (advanceTimestamp s).dc_calib_running_since_ = s.dc_calib_running_since_ := rfl

/-- `advanceTimestamp` leaves the calibration time constant alone. -/
theorem adv_tau (s : MotorState) :
    (advanceTimestamp s).dc_calib_tau = s.dc_calib_tau := rfl

/-- The DC-calibration block on a counting-down cycle with invalid current
resets the offsets and the accumulator to exactly zero. -/
theorem dcs_invalid (s : MotorState) (cur : Iph)
    (h : s.counting_down_ = true) (hv : currentValid cur = false) :
    (dcCalibStage s cur).DC_calib_ =
      { phA := .fin ⟨0, 1⟩, phB := .fin ⟨0, 1⟩, phC := .fin ⟨0, 1⟩ } ∧
    (dcCalibStage s cur).dc_calib_running_since_ = .fin ⟨0, 1⟩ := by
  simp [dcCalibStage, h, hv]

/-- The DC-calibration block on a counting-down cycle with valid current
low-pass updates the offsets and advances the accumulator. -/
theorem dcs_valid (s : MotorState) (cur : Iph)
    (h : s.counting_down_ = true) (hv : currentValid cur = true) :
    (dcCalibStage s cur).DC_calib_ = dcCalibStep s.DC_calib_ s.dc_calib_tau cur ∧
    (dcCalibStage s cur).dc_calib_running_since_ =
      s.dc_calib_running_since_.add dc_calib_period := by
  simp [dcCalibStage, h, hv]

/-- C1: for every call to `apply_pwm_timings`, the three compare values are
written (and retained in the registers), and when the hardware update/latch
flag is found set after the write, the motor ends the call disarmed with
the control-deadline-missed error, regardless of the written values, of the
tentative flag, and of the brake-resistor state. -/
theorem apply_pwm_timings_latch_check_disarms (s : MotorState) (brake : Bool)
    (t0 t1 t2 : Nat) (tentative : Bool) :
    (Motor.apply_pwm_timings s brake t0 t1 t2 tentative true).ccr1 = t0 ∧
    (Motor.apply_pwm_timings s brake t0 t1 t2 tentative true).ccr2 = t1 ∧
    (Motor.apply_pwm_timings s brake t0 t1 t2 tentative true).ccr3 = t2 ∧
    (Motor.apply_pwm_timings s brake t0 t1 t2 tentative true).is_armed_ = false ∧
    (Motor.apply_pwm_timings s brake t0 t1 t2 tentative true).error_ &&&
      ERROR_CONTROL_DEADLINE_MISSED = ERROR_CONTROL_DEADLINE_MISSED := by
  simp only [Motor.apply_pwm_timings]
  cases brake <;> cases tentative <;>
    simp [Motor.disarm_with_error, Motor.disarm, apply_ite MotorState.ccr1,
      apply_ite MotorState.ccr2, apply_ite MotorState.ccr3, apply_ite MotorState.is_armed_,
      apply_ite MotorState.error_, lor_land_self]

/-- C2 counterexample: starting from a concrete disarmed state whose sticky
error mask was set by `disarm_with_error` (and never cleared), a single
`arm` call with the brake resistor armed leaves the motor armed while
`error_flags` is still nonzero. -/
theorem arm_with_pending_error_stays_armed :
    (Motor.arm (Motor.disarm_with_error motor0 ERROR_DRV_FAULT) true none).1.is_armed_ = true ∧
    (Motor.arm (Motor.disarm_with_error motor0 ERROR_DRV_FAULT) true none).1.error_ ≠ 0 := by
  constructor
  · rfl
  · decide

/-- C2 amended: every error write through `disarm_with_error` (the path all
fault detections use) immediately leaves the motor disarmed with the bit in
the sticky mask; the one direct `error_ |=` write (in
`measure_phase_inductance`'s tail) happens with the motor already disarmed;
and `arm` preserves the error mask and never inspects it, so arming with a
pending nonzero mask keeps the mask nonzero. -/
theorem error_writes_disarm_but_arm_ignores_error (s : MotorState) (e : Nat)
    (b : Bool) (cl : Option ControlLaw) (cli : IndState) :
    (Motor.disarm_with_error s e).is_armed_ = false ∧
    (Motor.disarm_with_error s e).error_ &&& e = e ∧
    (Motor.measure_phase_inductance_tail s cli).1.is_armed_ = false ∧
    (Motor.arm s b cl).1.error_ = s.error_ ∧
    (Motor.arm s b cl).2 = true := by
  refine ⟨rfl, ?_, ?_, ?_, ?_⟩
  · exact lor_land_self s.error_ e
  · simp only [Motor.measure_phase_inductance_tail]
    split <;> rfl
  · cases b <;> rfl
  · cases b <;> rfl

/-- C3: evaluation at the failing input — `disarm()` on a concrete motor
that is already disarmed performs no hardware-disable side effect
(`gate_enabled` untouched) and only the idempotent flag clears, yet it still
runs `update_brake_current()` exactly once, because the guard
`if (was_armed)` tests the never-null pointer rather than the saved flag. -/
theorem disarm_on_disarmed_motor_still_updates_brake_current :
    motor0.is_armed_ = false ∧
    (Motor.disarm motor0).1.gate_enabled = motor0.gate_enabled ∧
    (Motor.disarm motor0).1.is_armed_ = false ∧
    (Motor.disarm motor0).1.aoe = false ∧
    (Motor.disarm motor0).1.moe = false ∧
    (Motor.disarm motor0).2 = true ∧
    (Motor.disarm motor0).1.brake_updates = motor0.brake_updates + 1 := by
  decide

/-- C4: whenever the hardware counter direction equals the direction stored
from the previous call, `tim_update_cb` disarms with the
timer-update-missed error and returns immediately: the compare registers,
the measured currents, the DC-offset estimates, the calibration-time
accumulator, the leakage value, the bus-current estimate and the direction
tracker are all left unchanged, and no control-law state survives
(the disarm detaches it). -/
theorem tim_update_cb_missed_update_early_return (s : MotorState) (env : Env)
    (a b c : Nat) (h : s.counting_down_ = env.dir_down) :
    (Motor.tim_update_cb s env a b c).is_armed_ = false ∧
    (Motor.tim_update_cb s env a b c).error_ &&& ERROR_TIMER_UPDATE_MISSED =
      ERROR_TIMER_UPDATE_MISSED ∧
    (Motor.tim_update_cb s env a b c).current_meas_ = s.current_meas_ ∧
    (Motor.tim_update_cb s env a b c).DC_calib_ = s.DC_calib_ ∧
    (Motor.tim_update_cb s env a b c).I_bus_ = s.I_bus_ ∧
    (Motor.tim_update_cb s env a b c).dc_calib_running_since_ = s.dc_calib_running_since_ ∧
    (Motor.tim_update_cb s env a b c).ccr1 = s.ccr1 ∧
    (Motor.tim_update_cb s env a b c).ccr2 = s.ccr2 ∧
    (Motor.tim_update_cb s env a b c).ccr3 = s.ccr3 ∧
    (Motor.tim_update_cb s env a b c).I_leak_ = s.I_leak_ ∧
    (Motor.tim_update_cb s env a b c).counting_down_ = s.counting_down_ := by
  simp [Motor.tim_update_cb, advanceTimestamp, h, Motor.disarm_with_error, Motor.disarm,
    lor_land_self]

/-- C4 witness: the early return evaluated on `motor0` (direction unchanged:
both the stored tracker and the fresh direction read false). -/
theorem tim_update_cb_missed_update_early_return_witness :
    (Motor.tim_update_cb motor0 envUp 0 0 0).is_armed_ = false ∧
    (Motor.tim_update_cb motor0 envUp 0 0 0).error_ &&& ERROR_TIMER_UPDATE_MISSED =
      ERROR_TIMER_UPDATE_MISSED ∧
    (Motor.tim_update_cb motor0 envUp 0 0 0).current_meas_ = motor0.current_meas_ ∧
    (Motor.tim_update_cb motor0 envUp 0 0 0).DC_calib_ = motor0.DC_calib_ ∧
    (Motor.tim_update_cb motor0 envUp 0 0 0).I_bus_ = motor0.I_bus_ ∧
    (Motor.tim_update_cb motor0 envUp 0 0 0).dc_calib_running_since_ =
      motor0.dc_calib_running_since_ ∧
    (Motor.tim_update_cb motor0 envUp 0 0 0).ccr1 = motor0.ccr1 ∧
    (Motor.tim_update_cb motor0 envUp 0 0 0).ccr2 = motor0.ccr2 ∧
    (Motor.tim_update_cb motor0 envUp 0 0 0).ccr3 = motor0.ccr3 ∧
    (Motor.tim_update_cb motor0 envUp 0 0 0).I_leak_ = motor0.I_leak_ ∧
    (Motor.tim_update_cb motor0 envUp 0 0 0).counting_down_ = motor0.counting_down_ :=
  tim_update_cb_missed_update_early_return motor0 envUp 0 0 0 rfl

/-- C5 counterexample: with a finite bus voltage (12 V) and a NaN alpha
current, the resistance law's `on_measurement` returns `ERROR_NONE` (the NaN
silently poisons `test_voltage_`, and only the bus voltage is checked for
NaN), refuting the claim that both laws fail on a non-finite alpha
current. -/
theorem resistance_law_accepts_nan_alpha_current :
    FVal.isNaN FVal.nan = true ∧
    (resOnMeasurement resCL0 (FVal.fin (Q.ofNat 12)) FVal.nan (FVal.fin ⟨0, 1⟩) 0).2 =
      ERROR_NONE ∧
    (resOnMeasurement resCL0 (FVal.fin (Q.ofNat 12)) FVal.nan (FVal.fin ⟨0, 1⟩) 0).1.test_voltage_ =
      FVal.nan := by
  decide

/-- C5 amended: the inductance law returns a non-`ERROR_NONE` kind whenever
the bus voltage or the alpha current is NaN; the resistance law does so
whenever the bus voltage is NaN, but it performs no NaN check on the alpha
current. -/
theorem measurement_laws_nan_checks (clr : ResState) (cli : IndState)
    (vb ia ib : FVal) (ts : Nat) :
    (ia.isNaN = true ∨ vb.isNaN = true →
      (indOnMeasurement cli vb ia ib ts).2 ≠ ERROR_NONE) ∧
    (vb.isNaN = true → (resOnMeasurement clr vb ia ib ts).2 ≠ ERROR_NONE) := by
  constructor
  · intro h
    have hb : (ia.isNaN || vb.isNaN) = true := by
      rcases h with h | h <;> simp [h]
    simp [indOnMeasurement, hb, ERROR_UNKNOWN_VBUS_VOLTAGE, ERROR_NONE]
  · intro h
    simp only [resOnMeasurement]
    split
    · simp [ERROR_PHASE_RESISTANCE_OUT_OF_RANGE, ERROR_NONE]
    · simp [h, ERROR_UNKNOWN_VBUS_VOLTAGE, ERROR_NONE]

/-- C5 witness: concrete NaN inputs — the inductance law rejects a NaN alpha
current and the resistance law rejects a NaN bus voltage. -/
theorem measurement_laws_nan_checks_witness :
    (FVal.nan.isNaN = true ∨ (FVal.fin (Q.ofNat 12)).isNaN = true) ∧
    (indOnMeasurement indCL0 (FVal.fin (Q.ofNat 12)) FVal.nan (FVal.fin ⟨0, 1⟩) 0).2 ≠
      ERROR_NONE ∧
    (resOnMeasurement resCL0 FVal.nan (FVal.fin ⟨0, 1⟩) (FVal.fin ⟨0, 1⟩) 0).2 ≠
      ERROR_NONE :=
  ⟨Or.inl rfl,
   (measurement_laws_nan_checks resCL0 indCL0 (FVal.fin (Q.ofNat 12)) FVal.nan
      (FVal.fin ⟨0, 1⟩) 0).1 (Or.inl rfl),
   (measurement_laws_nan_checks resCL0 indCL0 FVal.nan (FVal.fin ⟨0, 1⟩)
      (FVal.fin ⟨0, 1⟩) 0).2 rfl⟩

/-- C6 counterexample: a counting-up (current-sense) interrupt cycle whose
current is invalid (all three codes are the unavailable sentinel) processes
the invalid current (`current_meas_` becomes NaN) yet leaves the nonzero
DC-offset estimates and the elapsed-calibration-time accumulator untouched,
refuting the claim that they are reset on every cycle with invalid
current. -/
theorem dc_calib_not_reset_on_current_sense_half :
    currentValid (cycleCurrent sC6.phase_current_rev_gain_ sC6.shunt_conductance_
      sC6.current_sensor_mask_ 4294967295 4294967295 4294967295) = false ∧
    (Motor.tim_update_cb sC6 envUp 4294967295 4294967295 4294967295).current_meas_.phA =
      FVal.nan ∧
    (Motor.tim_update_cb sC6 envUp 4294967295 4294967295 4294967295).DC_calib_ =
      sC6.DC_calib_ ∧
    sC6.DC_calib_.phA ≠ FVal.fin ⟨0, 1⟩ ∧
    (Motor.tim_update_cb sC6 envUp 4294967295 4294967295 4294967295).dc_calib_running_since_ =
      FVal.fin (Q.ofNat 5) := by
  decide

/-- C6 amended: on every counting-down (DC-calibration) half-cycle that is
not the missed-update early return, invalid current resets the per-phase
DC-offset estimates and the elapsed-calibration-time accumulator to exactly
zero, and valid current low-pass updates them with filter gain
`min(dc_calib_period / tau, 1)` where `dc_calib_period` is twice the
interrupt half-period; on counting-up half-cycles they are untouched. -/
theorem dc_calib_stage_spec (s : MotorState) (env : Env) (a b c : Nat)
    (h : s.counting_down_ = false) (hd : env.dir_down = true) :
    (currentValid (cycleCurrent s.phase_current_rev_gain_ s.shunt_conductance_
        s.current_sensor_mask_ a b c) = false →
      (Motor.tim_update_cb s env a b c).DC_calib_ =
        { phA := .fin ⟨0, 1⟩, phB := .fin ⟨0, 1⟩, phC := .fin ⟨0, 1⟩ } ∧
      (Motor.tim_update_cb s env a b c).dc_calib_running_since_ = .fin ⟨0, 1⟩) ∧
    (currentValid (cycleCurrent s.phase_current_rev_gain_ s.shunt_conductance_
        s.current_sensor_mask_ a b c) = true →
      (Motor.tim_update_cb s env a b c).DC_calib_ =
        dcCalibStep s.DC_calib_ s.dc_calib_tau
          (cycleCurrent s.phase_current_rev_gain_ s.shunt_conductance_
            s.current_sensor_mask_ a b c) ∧
      (Motor.tim_update_cb s env a b c).dc_calib_running_since_ =
        s.dc_calib_running_since_.add dc_calib_period) := by
  have hcb : Motor.tim_update_cb s env a b c =
      pwmStage (currentSenseStage (dcCalibStage
        (saturationStep (tentativePwmStep (setCountingDown (advanceTimestamp s) true) env) a b c)
        (cycleCurrent s.phase_current_rev_gain_ s.shunt_conductance_ s.current_sensor_mask_ a b c)) env
        (cycleCurrent s.phase_current_rev_gain_ s.shunt_conductance_ s.current_sensor_mask_ a b c)) env := by
    simp [Motor.tim_update_cb, h, hd, advanceTimestamp, setCountingDown]
  have hcd3 : (saturationStep (tentativePwmStep (setCountingDown (advanceTimestamp s) true) env)
      a b c).counting_down_ = true := by
    simp [sat_cd, tps_cd, setCountingDown]
  constructor
  · intro hinv
    rw [hcb, css_skip _ _ _ (by rw [dcs_cd, hcd3])]
    exact ⟨by rw [pwm_DC]; exact (dcs_invalid _ _ hcd3 hinv).1,
           by rw [pwm_run]; exact (dcs_invalid _ _ hcd3 hinv).2⟩
  · intro hval
    rw [hcb, css_skip _ _ _ (by rw [dcs_cd, hcd3])]
    constructor
    · rw [pwm_DC, (dcs_valid _ _ hcd3 hval).1, sat_DC, tps_DC, sat_tau, tps_tau,
        scd_DC, adv_DC, scd_tau, adv_tau]
    · rw [pwm_run, (dcs_valid _ _ hcd3 hval).2, sat_run, tps_run, scd_run, adv_run]

/-- C6 witness: a concrete counting-down cycle whose codes are all the
unavailable sentinel — the DC-offset estimates and the accumulator are reset
to exactly zero. -/
theorem dc_calib_stage_spec_witness :
    motor0.counting_down_ = false ∧ envDown.dir_down = true ∧
    currentValid (cycleCurrent motor0.phase_current_rev_gain_ motor0.shunt_conductance_
      motor0.current_sensor_mask_ 4294967295 4294967295 4294967295) = false ∧
    (Motor.tim_update_cb motor0 envDown 4294967295 4294967295 4294967295).DC_calib_ =
      { phA := .fin ⟨0, 1⟩, phB := .fin ⟨0, 1⟩, phC := .fin ⟨0, 1⟩ } ∧
    (Motor.tim_update_cb motor0 envDown 4294967295 4294967295 4294967295).dc_calib_running_since_ =
      .fin ⟨0, 1⟩ :=
  ⟨rfl, rfl, by decide,
   (dc_calib_stage_spec motor0 envDown 4294967295 4294967295 4294967295 rfl rfl).1 (by decide)⟩

/-- C7 counterexample: a reachable run with zero test current (one
delivered measurement drives `test_voltage_` to the finite value `1/800`)
ends with resistance `test_voltage / test_current = +infinity`, which is not
finite, yet `measure_phase_resistance`'s tail reports success and sets no
phase-resistance error — the code only tests `isnan`. -/
theorem resistance_tail_accepts_infinite_result :
    resGetResistance clC7run = FVal.inf false ∧
    FVal.isNaN (resGetResistance clC7run) = false ∧
    (Motor.measure_phase_resistance_tail motorArmed clC7run).2 = true ∧
    (Motor.measure_phase_resistance_tail motorArmed clC7run).1.error_ &&&
      ERROR_PHASE_RESISTANCE_OUT_OF_RANGE = 0 := by
  decide

/-- C7 amended: `measure_phase_resistance` returns failure and sets the
phase-resistance-out-of-range error whenever the resistance result
`test_voltage / test_current` is NaN (an infinite result passes
undetected). -/
theorem resistance_tail_rejects_nan_result (s : MotorState) (cl : ResState)
    (h : (resGetResistance cl).isNaN = true) :
    (Motor.measure_phase_resistance_tail s cl).2 = false ∧
    (Motor.measure_phase_resistance_tail s cl).1.error_ &&&
      ERROR_PHASE_RESISTANCE_OUT_OF_RANGE = ERROR_PHASE_RESISTANCE_OUT_OF_RANGE := by
  simp [Motor.measure_phase_resistance_tail, h, dwe_error, lor_land_self,
    Motor.disarm_with_error, Motor.disarm]

/-- C7 witness: with zero accumulated voltage and zero test current the
resistance result is `0 / 0 = NaN`, and the tail fails with the
out-of-range error set. -/
theorem resistance_tail_rejects_nan_result_witness :
    (resGetResistance clC7).isNaN = true ∧
    (Motor.measure_phase_resistance_tail motorArmed clC7).2 = false ∧
    (Motor.measure_phase_resistance_tail motorArmed clC7).1.error_ &&&
      ERROR_PHASE_RESISTANCE_OUT_OF_RANGE = ERROR_PHASE_RESISTANCE_OUT_OF_RANGE :=
  ⟨by decide, (resistance_tail_rejects_nan_result motorArmed clC7 (by decide)).1,
   (resistance_tail_rejects_nan_result motorArmed clC7 (by decide)).2⟩

/-- C8 counterexample: calling `arm` with the brake resistor disarmed on a
motor that is already armed leaves the armed flag set, so the claimed
postcondition `is_armed_ == brake_resistor_armed` is false (the flag is
true while the brake-resistor argument is false). -/
theorem arm_postcondition_counterexample :
    (Motor.arm motorArmed false none).1.is_armed_ = true ∧
    (Motor.arm motorArmed false none).1.is_armed_ ≠ false := by
  decide

/-- C8 amended: `arm` always returns true and sets the armed flag only when
the brake-resistor subsystem is armed, but it never clears the flag, so the
postcondition is `is_armed_ = (old is_armed_ || brake_resistor_armed)`; in
particular a disarmed motor stays (silently) disarmed when the brake
resistor is disarmed. -/
theorem arm_returns_true_and_never_clears (s : MotorState) (b : Bool)
    (cl : Option ControlLaw) :
    (Motor.arm s b cl).2 = true ∧
    (Motor.arm s b cl).1.is_armed_ = (s.is_armed_ || b) := by
  constructor
  · cases b <;> rfl
  · cases b <;> simp [Motor.arm]

/-- C9: both measurement routines overwrite the configuration value
unconditionally with the computed result — `measure_phase_resistance`'s tail
stores `get_resistance()` into `config_.phase_resistance` and
`measure_phase_inductance`'s tail stores `get_inductance()` into
`config_.phase_inductance`, regardless of the previous configuration value
and of whether the run fails. -/
theorem measurement_tails_overwrite_config_unconditionally (s : MotorState)
    (clr : ResState) (cli : IndState) :
    (Motor.measure_phase_resistance_tail s clr).1.phase_resistance = resGetResistance clr ∧
    (Motor.measure_phase_inductance_tail s cli).1.phase_inductance = indGetInductance cli := by
  constructor
  · simp only [Motor.measure_phase_resistance_tail]
    split <;> rfl
  · simp only [Motor.measure_phase_inductance_tail]
    split <;> rfl

/-- C10: third-phase reconstruction is driven solely by the static sensor
mask — with all three sensors populated (mask `0b111`) the switch leaves the
triple unchanged, so a phase that is unavailable (NaN, for example after a
saturation rejection) is not reconstructed from the other two and the
cycle's current is invalid. -/
theorem reconstruction_mask_driven_only (c : Iph) :
    inferMissing 7 c = c ∧
    (c.phA.isNaN = true → currentValid c = false) ∧
    (c.phB.isNaN = true → currentValid c = false) ∧
    (c.phC.isNaN = true → currentValid c = false) := by
  refine ⟨rfl, ?_, ?_, ?_⟩ <;> intro h <;> simp [currentValid, h]

/-- C10 witness: with mask `0b111` and phase A unavailable, the triple stays
unchanged and the cycle's current is invalid. -/
theorem reconstruction_mask_driven_only_witness :
    inferMissing 7 { phA := FVal.nan, phB := FVal.fin ⟨2, 1⟩, phC := FVal.fin ⟨3, 1⟩ } =
      { phA := FVal.nan, phB := FVal.fin ⟨2, 1⟩, phC := FVal.fin ⟨3, 1⟩ } ∧
    FVal.nan.isNaN = true ∧
    currentValid { phA := FVal.nan, phB := FVal.fin ⟨2, 1⟩, phC := FVal.fin ⟨3, 1⟩ } = false :=
  ⟨(reconstruction_mask_driven_only _).1, rfl,
   (reconstruction_mask_driven_only _).2.1 rfl⟩
